import Mathlib

/-!
# VoidWriter — shallow embedding of the session/completion core

This file embeds, in Lean, the session-lifecycle core of the VoidWriter
repository: the `/api/save` and `/api/complete` request handlers and the
shutdown logic of `src/writer/server.js`, the shutdown logic of
`src/server.js`, and the output construction of the CLI driver
`src/voidwriter.js`.  JSON values are modelled by an inductive `Json` type;
JavaScript truthiness of the relevant values is modelled explicitly; the file
system is an association list from paths to file contents; the outcome of a
`fs.writeFile` call is an explicit `Except String Unit` input (the error
message on failure).  Handlers are pure functions from a server state and a
request to a response together with the successor state.
-/

/-- A JSON value, the payloads exchanged over the HTTP API. -/
inductive Json where
  | null : Json
  | bool (b : Bool) : Json
  | num (n : Int) : Json
  | str (s : String) : Json
  | arr (elems : List Json) : Json
  | obj (members : List (String × Json)) : Json
deriving Repr

namespace Json

/-- Field lookup on a JSON object (`v.f` in JavaScript): the first member
with the given key, `none` for absent fields and for non-objects. -/
def getField : Json → String → Option Json
  | .obj members, k => (members.find? (fun m => m.1 = k)).map Prod.snd
  | _, _ => none

/-- JavaScript truthiness of a JSON value: `null`, `false`, `0` and `""`
are falsy, everything else is truthy. -/
def truthy : Json → Bool
  | .null => false
  | .bool b => b
  | .num n => n ≠ 0
  | .str s => !s.isEmpty
  | .arr _ => true
  | .obj _ => true

/-- JavaScript disjunction `a || b` on JSON values: `a` when truthy, else `b`. -/
def jsOr (a b : Json) : Json := if a.truthy then a else b

end Json

/-- The file system visible to the server: an association list from paths to
file contents.  `fs.writeFile` overwrites the whole file. -/
def FileSystem := List (String × String)

/-- Contents of the file at `p`, if it exists. -/
def readFS (fs : FileSystem) (p : String) : Option String :=
  (List.find? (fun e => e.1 = p) fs).map Prod.snd

/-- Whole-file overwrite at `p` (the effect of a successful
`fs.writeFile(p, content)`). -/
def writeFS (fs : FileSystem) (p : String) (content : String) : FileSystem :=
  (p, content) :: List.filter (fun e => ¬(e.1 = p)) fs

namespace WriterServer

/-!
## `src/writer/server.js`

Module-level mutable state of the server: `completionData` (initially
`null`), `serverResolve` (initially `null`, set once at startup), the save
configuration `saveConfig = { mode, path }` and the `shutdownOnSave` flag.
-/

/-- The `saveConfig` object: the mode is the configured string ("return",
"disk", "both"), the path is `null` (`none`) or a string. -/
structure SaveConfig where
  mode : String
  path : Option String
deriving Repr, DecidableEq

/-- The body of a `POST /api/save` request after
`const { buffer, metadata } = req.body`: `buffer` is the string field when
present (`none` models an absent field), `metadata` is free-form JSON
(`Json.null` models an absent/null field). -/
structure SaveRequest where
  buffer : Option String
  metadata : Json
deriving Repr

/-- Mutable server state touched by the request handlers: the stored
`completionData` slot, whether the completion gate (`serverResolve`, i.e.
the promise of `startServer`) has been signalled at least once, and the
file system. -/
structure ServerState where
  completionData : Option Json
  resolved : Bool
  fs : FileSystem

/-- An HTTP response: status code and JSON body. -/
structure Response where
  status : Nat
  body : Json
deriving Repr

/-- Result of running one request handler: the response sent, the successor
server state, whether a disk write was attempted during the request, and
whether this request signalled the completion gate (called or scheduled
`serverResolve`). -/
structure HandlerResult where
  response : Response
  state : ServerState
  writeAttempted : Bool
  signaled : Bool

/-- Falsiness test `!buffer` on the destructured `buffer` field: an absent
field and an empty string are both falsy. -/
def bufferFalsy : Option String → Bool
  | none => true
  | some s => s.isEmpty

/-- Truthiness of `saveConfig.path`: `null` and `""` are falsy. -/
def pathTruthy : Option String → Bool
  | none => false
  | some s => !s.isEmpty

/-- Either `null` or a string, as the JSON value serialized into a response. -/
def optStrJson : Option String → Json
  | none => Json.null
  | some s => Json.str s

/-- The completion payload stored by the `/api/save` auto-shutdown branch:
the object with success true, text the buffer, metadata the request
metadata (or the empty object when falsy), savedVia "save-button", and
filePath the saved path. -/
def savePayload (buffer : String) (metadata : Json) (savedPath : Option String) : Json :=
  Json.obj [("success", Json.bool true),
            ("text", Json.str buffer),
            ("metadata", metadata.jsOr (Json.obj [])),
            ("savedVia", Json.str "save-button"),
            ("filePath", optStrJson savedPath)]

/-- The 200 response body of a successful save:
`{ success: true, saved: shouldReturn ? { buffer, metadata } : null,
filePath: savedPath, mode: saveConfig.mode }`. -/
def saveSuccessBody (cfg : SaveConfig) (buffer : String) (metadata : Json)
    (savedPath : Option String) : Json :=
  Json.obj [("success", Json.bool true),
            ("saved", if cfg.mode = "return" ∨ cfg.mode = "both"
                      then Json.obj [("buffer", Json.str buffer), ("metadata", metadata)]
                      else Json.null),
            ("filePath", optStrJson savedPath),
            ("mode", Json.str cfg.mode)]

/-- Steps 3–5 of the `/api/save` handler once validation and the disk branch
are done: send the 200 response, and when `shutdownOnSave && serverResolve`
store the save payload as `completionData` and schedule the gate signal. -/
def saveFinish (cfg : SaveConfig) (shutdownOnSave serverResolveSet : Bool)
    (st : ServerState) (buffer : String) (metadata : Json)
    (savedPath : Option String) (wrote : Bool) : HandlerResult :=
  let resp : Response := ⟨200, saveSuccessBody cfg buffer metadata savedPath⟩
  if shutdownOnSave && serverResolveSet then
    let st' : ServerState :=
      { completionData := some (savePayload buffer metadata savedPath)
        resolved := true
        fs := st.fs }
    { response := resp, state := st', writeAttempted := wrote, signaled := true }
  else
    { response := resp, state := st, writeAttempted := wrote, signaled := false }

/-- The `POST /api/save` handler of `src/writer/server.js`.  `diskW` is the
outcome of the `fs.writeFile` call, should one be attempted (`Except.error`
carries `err.message`). -/
def saveHandler (cfg : SaveConfig) (shutdownOnSave serverResolveSet : Bool)
    (st : ServerState) (req : SaveRequest) (diskW : Except String Unit) : HandlerResult :=
  if bufferFalsy req.buffer then
    { response := ⟨400, Json.obj [("success", Json.bool false),
                                  ("error", Json.str "No buffer provided")]⟩
      state := st, writeAttempted := false, signaled := false }
  else
    let buffer := req.buffer.getD ""
    if (cfg.mode = "disk" ∨ cfg.mode = "both") ∧ pathTruthy cfg.path then
      match diskW with
      | .error e =>
          { response := ⟨500, Json.obj [("success", Json.bool false),
                                        ("error", Json.str ("Failed to write file: " ++ e))]⟩
            state := st, writeAttempted := true, signaled := false }
      | .ok _ =>
          let p := cfg.path.getD ""
          let st' := { st with fs := writeFS st.fs p buffer }
          saveFinish cfg shutdownOnSave serverResolveSet st' buffer req.metadata (some p) true
    else
      saveFinish cfg shutdownOnSave serverResolveSet st buffer req.metadata none false

/-- The `POST /api/complete` handler: store the request body as
`completionData`, respond with status "received" and success true, then
call `serverResolve` when it is set. -/
def completeHandler (serverResolveSet : Bool) (st : ServerState) (body : Json) :
    HandlerResult :=
  let st' : ServerState :=
    { completionData := some body
      resolved := st.resolved || serverResolveSet
      fs := st.fs }
  { response := ⟨200, Json.obj [("status", Json.str "received"),
                                ("success", Json.bool true)]⟩
    state := st'
    writeAttempted := false
    signaled := serverResolveSet }

/-- The default payload substituted at shutdown when no completion data was
captured. -/
def defaultCancelledPayload (timestamp : String) : Json :=
  Json.obj [("success", Json.bool false),
            ("text", Json.str ""),
            ("metadata", Json.obj [("cancelled", Json.bool true),
                                   ("wordCount", Json.num 0),
                                   ("sessionDuration", Json.num 0),
                                   ("timestamp", Json.str timestamp)])]

/-- The value `shutdown` resolves the session with: the captured
`completionData` when truthy, else the cancelled default. -/
def shutdownResult (completionData : Option Json) (timestamp : String) : Json :=
  match completionData with
  | some d => if d.truthy then d else defaultCancelledPayload timestamp
  | none => defaultCancelledPayload timestamp

end WriterServer

/-!
## Trace semantics of a writer-server session

`startServer` installs `serverResolve` once at startup (so it is set while
requests are being served), then requests are handled one at a time
(single-threaded event loop); at shutdown the stored `completionData` is
read once to produce the session result.  A session is modelled as the
sequence of API requests the handlers actually processed.
-/

namespace WriterServer

/-- One API request processed by the running server.  For a save request,
`diskW` is the outcome of the disk write should one be attempted. -/
inductive Event where
  | complete (body : Json)
  | save (req : SaveRequest) (diskW : Except String Unit)

/-- Per-session configuration fixed at startup. -/
structure SessionConfig where
  save : SaveConfig
  shutdownOnSave : Bool

/-- Process one request against the running server (where `serverResolve`
is set). -/
def step (cfg : SessionConfig) (st : ServerState) : Event → ServerState
  | .complete body => (completeHandler true st body).state
  | .save req diskW => (saveHandler cfg.save cfg.shutdownOnSave true st req diskW).state

/-- Process the requests of a whole session in order, starting from the fresh
state (`completionData = null`, gate pending) over an initial file system. -/
def runSession (cfg : SessionConfig) (fs0 : FileSystem) (events : List Event) :
    ServerState :=
  events.foldl (step cfg) { completionData := none, resolved := false, fs := fs0 }

/-- The final session result: what `shutdown` resolves the `startServer`
promise with after the processed requests. -/
def finalResult (cfg : SessionConfig) (fs0 : FileSystem) (events : List Event)
    (timestamp : String) : Json :=
  shutdownResult (runSession cfg fs0 events).completionData timestamp

/-- The completion payload an individual processed request stores, if any:
every `/api/complete` stores its body; a successful `/api/save` stores the
save payload exactly when `shutdownOnSave` is set. -/
def eventPayload (cfg : SessionConfig) : Event → Option Json
  | .complete body => some body
  | .save req diskW =>
      if bufferFalsy req.buffer then none
      else if (cfg.save.mode = "disk" ∨ cfg.save.mode = "both") ∧ pathTruthy cfg.save.path then
        match diskW with
        | .error _ => none
        | .ok _ =>
            if cfg.shutdownOnSave then
              some (savePayload (req.buffer.getD "") req.metadata (some (cfg.save.path.getD "")))
            else none
      else
        if cfg.shutdownOnSave then
          some (savePayload (req.buffer.getD "") req.metadata none)
        else none

/-- Whether an individual processed request signals the completion gate. -/
def eventSignals (cfg : SessionConfig) : Event → Bool
  | .complete _ => true
  | .save req diskW =>
      if bufferFalsy req.buffer then false
      else if (cfg.save.mode = "disk" ∨ cfg.save.mode = "both") ∧ pathTruthy cfg.save.path then
        match diskW with
        | .error _ => false
        | .ok _ => cfg.shutdownOnSave
      else cfg.shutdownOnSave

/-- Last-writer-wins over the payloads stored by a request sequence. -/
def lastPayload (cfg : SessionConfig) (events : List Event) : Option Json :=
  events.foldl
    (fun acc e => match eventPayload cfg e with
      | some p => some p
      | none => acc)
    none

end WriterServer

namespace BasicServer

/-!
## `src/server.js`

The basic server shares the completion protocol of the writer server; its
`shutdown` resolves with the captured `completionData` when truthy, else
with the same cancelled default payload.
-/

/-- The default payload of the `shutdown` of `src/server.js` when no
completion data was captured. -/
def defaultCancelledPayload (timestamp : String) : Json :=
  Json.obj [("success", Json.bool false),
            ("text", Json.str ""),
            ("metadata", Json.obj [("cancelled", Json.bool true),
                                   ("wordCount", Json.num 0),
                                   ("sessionDuration", Json.num 0),
                                   ("timestamp", Json.str timestamp)])]

/-- The value the `shutdown` of `src/server.js` resolves the session with. -/
def shutdownResult (completionData : Option Json) (timestamp : String) : Json :=
  match completionData with
  | some d => if d.truthy then d else defaultCancelledPayload timestamp
  | none => defaultCancelledPayload timestamp

end BasicServer

namespace Cli

/-!
## `src/voidwriter.js`

Result emission of the CLI driver (`main`, after `startServer` resolves):
build the output object and print it as JSON to stdout, or write it to the
file named by the output option.
-/

/-- Number of maximal nonempty runs of non-whitespace characters;
`inWord` records whether the previous character was part of a word. -/
def countWordsAux (inWord : Bool) : List Char → Nat
  | [] => 0
  | c :: cs =>
      if c.isWhitespace then countWordsAux false cs
      else (if inWord then 0 else 1) + countWordsAux true cs

/-- Word count per the source, splitting the text on runs of whitespace and
keeping the nonempty pieces. -/
def countWords (s : String) : Nat :=
  countWordsAux false s.data

/-- The metadata substituted when the session result carries no (truthy)
metadata: `{ wordCount, sessionDuration: 0, timestamp }` with the word
count computed from the text (empty string when absent or falsy). -/
def fallbackMetadata (text : String) (now : String) : Json :=
  Json.obj [("wordCount", Json.num (countWords text)),
            ("sessionDuration", Json.num 0),
            ("timestamp", Json.str now)]

/-- The string content of the text field, defaulted to the empty string when
absent or falsy (the session results produced
by the server carry a string `text`; a non-string value would make the
word-count split throw in JavaScript, so only the string content is
modelled there). -/
def resultText (result : Json) : String :=
  match ((result.getField "text").getD Json.null).jsOr (Json.str "") with
  | Json.str s => s
  | _ => ""

/-- The success flag of the output object: false exactly when the result
carries an explicit `success` field equal to `false`. -/
def successFlag (result : Json) : Bool :=
  match result.getField "success" with
  | some (Json.bool false) => false
  | _ => true

/-- The output object built by `main` from the session result:
success is true unless the result says otherwise, text is the result text
(empty string when absent or falsy), and metadata is the result metadata,
with the fallback metadata substituted when it is absent or falsy. -/
def buildOutput (result : Json) (now : String) : Json :=
  let textJ := ((result.getField "text").getD Json.null).jsOr (Json.str "")
  let metaJ := match result.getField "metadata" with
    | some m => if m.truthy then m else fallbackMetadata (resultText result) now
    | none => fallbackMetadata (resultText result) now
  Json.obj [("success", Json.bool (successFlag result)),
            ("text", textJ),
            ("metadata", metaJ)]

/-- Where the result JSON goes: a single line on stdout, or a file write
when the output option was given. -/
inductive Emitted where
  | stdoutLine (output : Json)
  | fileWrite (path : String) (output : Json)

/-- Truthiness of `argv.output` (default `null`; a string option). -/
def outputOptTruthy : Option String → Bool
  | none => false
  | some s => !s.isEmpty

/-- Result emission of `main`: when the output option is truthy, write the
output object to that file, else print it to stdout as one JSON line. -/
def emitOutput (outputOpt : Option String) (result : Json) (now : String) : Emitted :=
  if outputOptTruthy outputOpt then
    Emitted.fileWrite (outputOpt.getD "") (buildOutput result now)
  else
    Emitted.stdoutLine (buildOutput result now)

end Cli

/-!
## Helper lemmas
-/

theorem readFS_writeFS_self (fs : FileSystem) (p c : String) :
    readFS (writeFS fs p c) p = some c := by
  simp [readFS, writeFS, List.find?]

theorem bufferFalsy_some_false {b : String} (hb : b ≠ "") :
    WriterServer.bufferFalsy (some b) = false := by
  simp only [WriterServer.bufferFalsy]
  exact Bool.eq_false_iff.mpr (fun h => hb ((String.isEmpty_iff b).mp h))

theorem pathTruthy_some_true {p : String} (hp : p ≠ "") :
    WriterServer.pathTruthy (some p) = true := by
  simp only [WriterServer.pathTruthy, Bool.not_eq_true']
  exact Bool.eq_false_iff.mpr (fun h => hp ((String.isEmpty_iff p).mp h))

/-!
## Claims

Each claim of the specification is settled by one theorem below (plus, for
claims the code refutes, a closed counterexample evaluating the embedded
handlers at a concrete input).
-/

/-- C4: a `POST /api/save` whose body lacks a `buffer` field is answered
`400 {success:false, error:"No buffer provided"}` and has no further side
effects: the server state (completion slot, gate flag, file system) is
untouched, no disk write is attempted, and the completion gate is not
signalled — for every configuration and save mode. -/
theorem save_missing_buffer_rejected (cfg : WriterServer.SaveConfig)
    (sos srs : Bool) (st : WriterServer.ServerState) (m : Json)
    (diskW : Except String Unit) :
    (WriterServer.saveHandler cfg sos srs st ⟨none, m⟩ diskW).response =
        ⟨400, Json.obj [("success", Json.bool false),
                        ("error", Json.str "No buffer provided")]⟩
    ∧ (WriterServer.saveHandler cfg sos srs st ⟨none, m⟩ diskW).state = st
    ∧ (WriterServer.saveHandler cfg sos srs st ⟨none, m⟩ diskW).writeAttempted = false
    ∧ (WriterServer.saveHandler cfg sos srs st ⟨none, m⟩ diskW).signaled = false :=
  ⟨rfl, rfl, rfl, rfl⟩

/-- C9: a `POST /api/save` whose `buffer` field is present but equal to the
empty string is rejected exactly like a missing buffer (JavaScript
truthiness: `!""` holds): status 400 with the same error body, state
untouched, no write, gate not signalled. -/
theorem save_empty_buffer_rejected_like_missing (cfg : WriterServer.SaveConfig)
    (sos srs : Bool) (st : WriterServer.ServerState) (m : Json)
    (diskW : Except String Unit) :
    (WriterServer.saveHandler cfg sos srs st ⟨some "", m⟩ diskW).response =
        ⟨400, Json.obj [("success", Json.bool false),
                        ("error", Json.str "No buffer provided")]⟩
    ∧ (WriterServer.saveHandler cfg sos srs st ⟨some "", m⟩ diskW).state = st
    ∧ (WriterServer.saveHandler cfg sos srs st ⟨some "", m⟩ diskW).writeAttempted = false
    ∧ (WriterServer.saveHandler cfg sos srs st ⟨some "", m⟩ diskW).signaled = false :=
  ⟨rfl, rfl, rfl, rfl⟩

/-- C10: while `shutdownOnSave` is false, no `POST /api/save` — whatever the
save mode, the request, or the outcome of the disk write — touches the
stored completion payload slot, and none signals the completion gate. -/
theorem save_no_shutdownOnSave_frame (cfg : WriterServer.SaveConfig)
    (srs : Bool) (st : WriterServer.ServerState) (req : WriterServer.SaveRequest)
    (diskW : Except String Unit) :
    (WriterServer.saveHandler cfg false srs st req diskW).state.completionData
        = st.completionData
    ∧ (WriterServer.saveHandler cfg false srs st req diskW).signaled = false := by
  unfold WriterServer.saveHandler
  split
  · exact ⟨rfl, rfl⟩
  · split
    · cases diskW <;> simp [WriterServer.saveFinish]
    · simp [WriterServer.saveFinish]

/-- C7: when the completion payload was never set, shutdown resolves the
session with the default payload: `success` is `false`, `text` is the empty
string, and the metadata carries `cancelled: true` — in both
`src/writer/server.js` and `src/server.js`. -/
theorem shutdown_default_cancelled_payload (ts : String) :
    (WriterServer.shutdownResult none ts).getField "success" = some (Json.bool false)
    ∧ (WriterServer.shutdownResult none ts).getField "text" = some (Json.str "")
    ∧ ((WriterServer.shutdownResult none ts).getField "metadata"
        >>= fun md => md.getField "cancelled") = some (Json.bool true)
    ∧ (BasicServer.shutdownResult none ts).getField "success" = some (Json.bool false)
    ∧ (BasicServer.shutdownResult none ts).getField "text" = some (Json.str "")
    ∧ ((BasicServer.shutdownResult none ts).getField "metadata"
        >>= fun md => md.getField "cancelled") = some (Json.bool true) :=
  ⟨rfl, rfl, rfl, rfl, rfl, rfl⟩

/-- C2 (counterexample): the round-trip claim fails for the empty buffer.
With saveMode `disk`, a configured savePath and an existing file, POSTing
the empty-string buffer is rejected (400) and the file keeps its previous
content instead of containing the posted string. -/
theorem save_empty_buffer_leaves_file :
    (WriterServer.saveHandler ⟨"disk", some "out.txt"⟩ false true
        ⟨none, false, [("out.txt", "old")]⟩ ⟨some "", Json.null⟩
        (Except.ok ())).response.status = 400
    ∧ readFS (WriterServer.saveHandler ⟨"disk", some "out.txt"⟩ false true
        ⟨none, false, [("out.txt", "old")]⟩ ⟨some "", Json.null⟩
        (Except.ok ())).state.fs "out.txt" = some "old" :=
  ⟨rfl, by decide⟩

/-- C2 (amended): for every non-empty buffer POSTed to the save endpoint in
mode `disk` or `both` with a configured savePath, when the disk write
succeeds the file at that path afterwards contains exactly the posted
string — verbatim, overwriting any previous content — and the request
succeeds with status 200. -/
theorem save_roundtrip_nonempty_buffer (cfg : WriterServer.SaveConfig)
    (sos srs : Bool) (st : WriterServer.ServerState) (b p : String) (m : Json)
    (hb : b ≠ "") (hmode : cfg.mode = "disk" ∨ cfg.mode = "both")
    (hpath : cfg.path = some p) (hp : p ≠ "") :
    readFS (WriterServer.saveHandler cfg sos srs st ⟨some b, m⟩
        (Except.ok ())).state.fs p = some b
    ∧ (WriterServer.saveHandler cfg sos srs st ⟨some b, m⟩
        (Except.ok ())).response.status = 200 := by
  have hpt : WriterServer.pathTruthy cfg.path = true := hpath ▸ pathTruthy_some_true hp
  have hgd : cfg.path.getD "" = p := by rw [hpath]; rfl
  unfold WriterServer.saveHandler
  rw [bufferFalsy_some_false hb]
  simp only [Bool.false_eq_true, if_false]
  rw [if_pos ⟨hmode, hpt⟩]
  by_cases hs : sos && srs <;>
    simp [WriterServer.saveFinish, hs, hgd, readFS_writeFS_self]

/-- C2 (witness): a concrete instance of the amended round-trip. -/
theorem save_roundtrip_nonempty_buffer_witness :
    readFS (WriterServer.saveHandler ⟨"disk", some "out.txt"⟩ false true
        ⟨none, false, [("out.txt", "old")]⟩ ⟨some "hello world", Json.null⟩
        (Except.ok ())).state.fs "out.txt" = some "hello world"
    ∧ (WriterServer.saveHandler ⟨"disk", some "out.txt"⟩ false true
        ⟨none, false, [("out.txt", "old")]⟩ ⟨some "hello world", Json.null⟩
        (Except.ok ())).response.status = 200 :=
  save_roundtrip_nonempty_buffer ⟨"disk", some "out.txt"⟩ false true
    ⟨none, false, [("out.txt", "old")]⟩ "hello world" "out.txt" Json.null
    (by decide) (Or.inl rfl) rfl (by decide)

/-- C3 (counterexample): in mode `disk` with no configured savePath, a save
request with a buffer is answered 200 with `success:true` and no disk write
is attempted — it is silently ignored, not surfaced as an error response as
the claim states. -/
theorem save_disk_mode_missing_path_silent_success :
    (WriterServer.saveHandler ⟨"disk", none⟩ false true ⟨none, false, []⟩
        ⟨some "hello", Json.null⟩ (Except.ok ())).response.status = 200
    ∧ (WriterServer.saveHandler ⟨"disk", none⟩ false true ⟨none, false, []⟩
        ⟨some "hello", Json.null⟩ (Except.ok ())).writeAttempted = false
    ∧ (WriterServer.saveHandler ⟨"disk", none⟩ false true ⟨none, false, []⟩
        ⟨some "hello", Json.null⟩ (Except.ok ())).response.body.getField "success"
        = some (Json.bool true) :=
  ⟨rfl, rfl, rfl⟩

/-- C3 (amended): a disk write is attempted exactly when the request carries
a truthy (non-empty) buffer AND saveMode is `disk` or `both` AND a truthy
savePath is configured; a missing savePath in those modes suppresses the
write silently instead of producing an error response. -/
theorem save_writeAttempted_iff_mode_and_path (cfg : WriterServer.SaveConfig)
    (sos srs : Bool) (st : WriterServer.ServerState)
    (req : WriterServer.SaveRequest) (diskW : Except String Unit) :
    (WriterServer.saveHandler cfg sos srs st req diskW).writeAttempted =
      (!WriterServer.bufferFalsy req.buffer
        && (decide (cfg.mode = "disk" ∨ cfg.mode = "both")
        && WriterServer.pathTruthy cfg.path)) := by
  unfold WriterServer.saveHandler
  by_cases hb : WriterServer.bufferFalsy req.buffer
  · simp [hb]
  · have hb' : WriterServer.bufferFalsy req.buffer = false := eq_false_of_ne_true hb
    simp only [hb', Bool.false_eq_true, if_false, Bool.not_false, Bool.true_and]
    by_cases hc : (cfg.mode = "disk" ∨ cfg.mode = "both")
        ∧ WriterServer.pathTruthy cfg.path = true
    · rw [if_pos hc]
      have hrhs : (decide (cfg.mode = "disk" ∨ cfg.mode = "both")
          && WriterServer.pathTruthy cfg.path) = true := by
        simp [hc.1, hc.2]
      rw [hrhs]
      cases diskW with
      | error e => rfl
      | ok u => by_cases hs : sos && srs <;> simp [WriterServer.saveFinish, hs]
    · rw [if_neg hc]
      have hrhs : (decide (cfg.mode = "disk" ∨ cfg.mode = "both")
          && WriterServer.pathTruthy cfg.path) = false := by
        rcases Decidable.em (cfg.mode = "disk" ∨ cfg.mode = "both") with h1 | h1
        · have h2 : WriterServer.pathTruthy cfg.path = false := by
            rcases Bool.eq_false_or_eq_true (WriterServer.pathTruthy cfg.path) with h | h
            · exact absurd ⟨h1, h⟩ hc
            · exact h
          simp [h2]
        · simp [h1]
      rw [hrhs]
      by_cases hs : sos && srs <;> simp [WriterServer.saveFinish, hs]

/-- C5: when the disk write of a save request fails (mode `disk` or `both`,
configured path, non-empty buffer), the response is
`500 {success:false, error:"Failed to write file: <message>"}` and the
request has no other effect: the server state is unchanged (no completion
payload stored, file system as before) and the completion gate is not
signalled. -/
theorem save_write_failure_500 (cfg : WriterServer.SaveConfig)
    (sos srs : Bool) (st : WriterServer.ServerState) (b : String) (m : Json)
    (e : String)
    (hb : b ≠ "") (hcond : (cfg.mode = "disk" ∨ cfg.mode = "both")
      ∧ WriterServer.pathTruthy cfg.path = true) :
    (WriterServer.saveHandler cfg sos srs st ⟨some b, m⟩ (Except.error e)).response =
        ⟨500, Json.obj [("success", Json.bool false),
                        ("error", Json.str ("Failed to write file: " ++ e))]⟩
    ∧ (WriterServer.saveHandler cfg sos srs st ⟨some b, m⟩ (Except.error e)).state = st
    ∧ (WriterServer.saveHandler cfg sos srs st ⟨some b, m⟩ (Except.error e)).signaled
        = false := by
  unfold WriterServer.saveHandler
  rw [bufferFalsy_some_false hb]
  simp only [Bool.false_eq_true, if_false]
  rw [if_pos hcond]
  exact ⟨rfl, rfl, rfl⟩

/-- C5 (witness): a concrete failing write in disk mode. -/
theorem save_write_failure_500_witness :
    (WriterServer.saveHandler ⟨"disk", some "out.txt"⟩ true true
        ⟨none, false, []⟩ ⟨some "hello", Json.null⟩
        (Except.error "EACCES: permission denied")).response =
        ⟨500, Json.obj [("success", Json.bool false),
            ("error", Json.str ("Failed to write file: " ++ "EACCES: permission denied"))]⟩
    ∧ (WriterServer.saveHandler ⟨"disk", some "out.txt"⟩ true true
        ⟨none, false, []⟩ ⟨some "hello", Json.null⟩
        (Except.error "EACCES: permission denied")).state = ⟨none, false, []⟩
    ∧ (WriterServer.saveHandler ⟨"disk", some "out.txt"⟩ true true
        ⟨none, false, []⟩ ⟨some "hello", Json.null⟩
        (Except.error "EACCES: permission denied")).signaled = false :=
  save_write_failure_500 ⟨"disk", some "out.txt"⟩ true true ⟨none, false, []⟩
    "hello" Json.null "EACCES: permission denied" (by decide) ⟨Or.inl rfl, by decide⟩

theorem saveFinish_response (cfg : WriterServer.SaveConfig) (sos srs : Bool)
    (st : WriterServer.ServerState) (b : String) (m : Json) (sp : Option String)
    (w : Bool) :
    (WriterServer.saveFinish cfg sos srs st b m sp w).response =
      ⟨200, WriterServer.saveSuccessBody cfg b m sp⟩ := by
  unfold WriterServer.saveFinish
  by_cases hs : sos && srs <;> simp [hs]

theorem saveFinish_fs (cfg : WriterServer.SaveConfig) (sos srs : Bool)
    (st : WriterServer.ServerState) (b : String) (m : Json) (sp : Option String)
    (w : Bool) :
    (WriterServer.saveFinish cfg sos srs st b m sp w).state.fs = st.fs := by
  unfold WriterServer.saveFinish
  by_cases hs : sos && srs <;> simp [hs]

theorem saveFinish_completionData (cfg : WriterServer.SaveConfig) (sos srs : Bool)
    (st : WriterServer.ServerState) (b : String) (m : Json) (sp : Option String)
    (w : Bool) :
    (WriterServer.saveFinish cfg sos srs st b m sp w).state.completionData =
      (if sos && srs then some (WriterServer.savePayload b m sp)
       else st.completionData) := by
  unfold WriterServer.saveFinish
  by_cases hs : sos && srs <;> simp [hs]

theorem saveFinish_resolved (cfg : WriterServer.SaveConfig) (sos srs : Bool)
    (st : WriterServer.ServerState) (b : String) (m : Json) (sp : Option String)
    (w : Bool) :
    (WriterServer.saveFinish cfg sos srs st b m sp w).state.resolved =
      (st.resolved || (sos && srs)) := by
  unfold WriterServer.saveFinish
  by_cases hs : sos && srs <;> simp [hs]

theorem saveHandler_ok_write (cfg : WriterServer.SaveConfig) (sos srs : Bool)
    (st : WriterServer.ServerState) (req : WriterServer.SaveRequest)
    (hb : WriterServer.bufferFalsy req.buffer = false)
    (hc : (cfg.mode = "disk" ∨ cfg.mode = "both")
      ∧ WriterServer.pathTruthy cfg.path = true) :
    WriterServer.saveHandler cfg sos srs st req (Except.ok ()) =
      WriterServer.saveFinish cfg sos srs
        { st with fs := writeFS st.fs (cfg.path.getD "") (req.buffer.getD "") }
        (req.buffer.getD "") req.metadata (some (cfg.path.getD "")) true := by
  unfold WriterServer.saveHandler
  rw [hb]
  simp only [Bool.false_eq_true, if_false]
  rw [if_pos hc]

theorem saveHandler_error_write (cfg : WriterServer.SaveConfig) (sos srs : Bool)
    (st : WriterServer.ServerState) (req : WriterServer.SaveRequest) (e : String)
    (hb : WriterServer.bufferFalsy req.buffer = false)
    (hc : (cfg.mode = "disk" ∨ cfg.mode = "both")
      ∧ WriterServer.pathTruthy cfg.path = true) :
    WriterServer.saveHandler cfg sos srs st req (Except.error e) =
      { response := ⟨500, Json.obj [("success", Json.bool false),
          ("error", Json.str ("Failed to write file: " ++ e))]⟩
        state := st, writeAttempted := true, signaled := false } := by
  unfold WriterServer.saveHandler
  rw [hb]
  simp only [Bool.false_eq_true, if_false]
  rw [if_pos hc]

theorem saveHandler_no_write (cfg : WriterServer.SaveConfig) (sos srs : Bool)
    (st : WriterServer.ServerState) (req : WriterServer.SaveRequest)
    (diskW : Except String Unit)
    (hb : WriterServer.bufferFalsy req.buffer = false)
    (hc : ¬((cfg.mode = "disk" ∨ cfg.mode = "both")
      ∧ WriterServer.pathTruthy cfg.path = true)) :
    WriterServer.saveHandler cfg sos srs st req diskW =
      WriterServer.saveFinish cfg sos srs st (req.buffer.getD "") req.metadata
        none false := by
  unfold WriterServer.saveHandler
  rw [hb]
  simp only [Bool.false_eq_true, if_false]
  rw [if_neg hc]

theorem saveSuccessBody_fields (cfg : WriterServer.SaveConfig) (b : String)
    (m : Json) (sp : Option String) :
    (WriterServer.saveSuccessBody cfg b m sp).getField "saved" =
        some (if cfg.mode = "return" ∨ cfg.mode = "both"
              then Json.obj [("buffer", Json.str b), ("metadata", m)]
              else Json.null)
    ∧ (WriterServer.saveSuccessBody cfg b m sp).getField "filePath" =
        some (WriterServer.optStrJson sp)
    ∧ (WriterServer.saveSuccessBody cfg b m sp).getField "mode" =
        some (Json.str cfg.mode) := by
  refine ⟨?_, ?_, ?_⟩ <;> simp [WriterServer.saveSuccessBody, Json.getField, List.find?]

/-- C6: every successful save (non-empty buffer, write succeeding when
attempted) is answered 200 with a body in which `saved` is
`{buffer, metadata}` exactly when the mode is `return` or `both` and `null`
otherwise, `filePath` is the configured path when a write occurred and
`null` when no write occurred, and `mode` echoes the configured save mode;
moreover, when no write occurred the file system is untouched (in
particular, in `return` mode no file is created). -/
theorem save_success_response_shape (cfg : WriterServer.SaveConfig)
    (sos srs : Bool) (st : WriterServer.ServerState) (b : String) (m : Json)
    (r : WriterServer.HandlerResult)
    (hb : b ≠ "")
    (hr : r = WriterServer.saveHandler cfg sos srs st ⟨some b, m⟩ (Except.ok ())) :
    r.response.status = 200
    ∧ r.response.body.getField "saved" =
        some (if cfg.mode = "return" ∨ cfg.mode = "both"
              then Json.obj [("buffer", Json.str b), ("metadata", m)]
              else Json.null)
    ∧ r.response.body.getField "filePath" =
        some (WriterServer.optStrJson
          (if (cfg.mode = "disk" ∨ cfg.mode = "both")
              ∧ WriterServer.pathTruthy cfg.path = true
           then cfg.path else none))
    ∧ r.response.body.getField "mode" = some (Json.str cfg.mode)
    ∧ (¬((cfg.mode = "disk" ∨ cfg.mode = "both")
          ∧ WriterServer.pathTruthy cfg.path = true) → r.state.fs = st.fs) := by
  subst hr
  have hb' := bufferFalsy_some_false hb
  by_cases hc : (cfg.mode = "disk" ∨ cfg.mode = "both")
      ∧ WriterServer.pathTruthy cfg.path = true
  · have hpd : some (cfg.path.getD "") = cfg.path := by
      cases hpath : cfg.path with
      | none => rw [hpath] at hc; exact absurd hc.2 (by simp [WriterServer.pathTruthy])
      | some q => rfl
    rw [saveHandler_ok_write cfg sos srs st ⟨some b, m⟩ hb' hc]
    refine ⟨?_, ?_, ?_, ?_, fun hn => absurd hc hn⟩
    · rw [saveFinish_response]
    · rw [saveFinish_response]
      simp only [Option.getD_some]
      exact (saveSuccessBody_fields cfg b m _).1
    · rw [saveFinish_response]
      simp only [Option.getD_some]
      rw [(saveSuccessBody_fields cfg b m _).2.1, if_pos hc, hpd]
    · rw [saveFinish_response]
      simp only [Option.getD_some]
      exact (saveSuccessBody_fields cfg b m _).2.2
  · rw [saveHandler_no_write cfg sos srs st ⟨some b, m⟩ (Except.ok ()) hb' hc]
    refine ⟨?_, ?_, ?_, ?_, fun _ => ?_⟩
    · rw [saveFinish_response]
    · rw [saveFinish_response]
      simp only [Option.getD_some]
      exact (saveSuccessBody_fields cfg b m _).1
    · rw [saveFinish_response]
      simp only [Option.getD_some]
      rw [(saveSuccessBody_fields cfg b m _).2.1, if_neg hc]
    · rw [saveFinish_response]
      simp only [Option.getD_some]
      exact (saveSuccessBody_fields cfg b m _).2.2
    · rw [saveFinish_fs]

/-- C6 (witness): a concrete successful save in return mode — `saved`
carries the buffer, `filePath` is null, the file system is untouched. -/
theorem save_success_response_shape_witness :
    (WriterServer.saveHandler ⟨"return", none⟩ false true ⟨none, false, []⟩
        ⟨some "hi", Json.null⟩ (Except.ok ())).response.status = 200
    ∧ (WriterServer.saveHandler ⟨"return", none⟩ false true ⟨none, false, []⟩
        ⟨some "hi", Json.null⟩ (Except.ok ())).response.body.getField "saved" =
        some (if ("return" : String) = "return" ∨ ("return" : String) = "both"
              then Json.obj [("buffer", Json.str "hi"), ("metadata", Json.null)]
              else Json.null)
    ∧ (WriterServer.saveHandler ⟨"return", none⟩ false true ⟨none, false, []⟩
        ⟨some "hi", Json.null⟩ (Except.ok ())).response.body.getField "filePath" =
        some (WriterServer.optStrJson
          (if (("return" : String) = "disk" ∨ ("return" : String) = "both")
              ∧ WriterServer.pathTruthy none = true
           then none else none))
    ∧ (WriterServer.saveHandler ⟨"return", none⟩ false true ⟨none, false, []⟩
        ⟨some "hi", Json.null⟩ (Except.ok ())).response.body.getField "mode" =
        some (Json.str "return")
    ∧ (¬((("return" : String) = "disk" ∨ ("return" : String) = "both")
          ∧ WriterServer.pathTruthy none = true) →
        (WriterServer.saveHandler ⟨"return", none⟩ false true ⟨none, false, []⟩
          ⟨some "hi", Json.null⟩ (Except.ok ())).state.fs = []) :=
  save_success_response_shape ⟨"return", none⟩ false true ⟨none, false, []⟩
    "hi" Json.null _ (by decide) rfl

theorem step_completionData (cfg : WriterServer.SessionConfig)
    (st : WriterServer.ServerState) (e : WriterServer.Event) :
    (WriterServer.step cfg st e).completionData =
      (match WriterServer.eventPayload cfg e with
       | some p => some p
       | none => st.completionData) := by
  cases e with
  | complete body => rfl
  | save req diskW =>
      by_cases hb : WriterServer.bufferFalsy req.buffer
      · simp [WriterServer.step, WriterServer.saveHandler, WriterServer.eventPayload, hb]
      · have hb' := eq_false_of_ne_true hb
        by_cases hc : (cfg.save.mode = "disk" ∨ cfg.save.mode = "both")
            ∧ WriterServer.pathTruthy cfg.save.path = true
        · cases diskW with
          | error e =>
              simp only [WriterServer.step]
              rw [saveHandler_error_write cfg.save cfg.shutdownOnSave true st req e hb' hc]
              simp [WriterServer.eventPayload, hb', hc]
          | ok u =>
              cases u
              simp only [WriterServer.step]
              rw [saveHandler_ok_write cfg.save cfg.shutdownOnSave true st req hb' hc,
                saveFinish_completionData]
              simp only [WriterServer.eventPayload, hb', Bool.false_eq_true, if_false,
                if_pos hc, Bool.and_true]
              by_cases hs : cfg.shutdownOnSave <;> simp [hs]
        · simp only [WriterServer.step]
          rw [saveHandler_no_write cfg.save cfg.shutdownOnSave true st req diskW hb' hc,
            saveFinish_completionData]
          simp only [WriterServer.eventPayload, hb', Bool.false_eq_true, if_false,
            if_neg hc, Bool.and_true]
          by_cases hs : cfg.shutdownOnSave <;> simp [hs]

theorem step_resolved (cfg : WriterServer.SessionConfig)
    (st : WriterServer.ServerState) (e : WriterServer.Event) :
    (WriterServer.step cfg st e).resolved =
      (st.resolved || WriterServer.eventSignals cfg e) := by
  cases e with
  | complete body => rfl
  | save req diskW =>
      by_cases hb : WriterServer.bufferFalsy req.buffer
      · simp [WriterServer.step, WriterServer.saveHandler, WriterServer.eventSignals, hb]
      · have hb' := eq_false_of_ne_true hb
        by_cases hc : (cfg.save.mode = "disk" ∨ cfg.save.mode = "both")
            ∧ WriterServer.pathTruthy cfg.save.path = true
        · cases diskW with
          | error e =>
              simp only [WriterServer.step]
              rw [saveHandler_error_write cfg.save cfg.shutdownOnSave true st req e hb' hc]
              simp [WriterServer.eventSignals, hb', hc]
          | ok u =>
              cases u
              simp only [WriterServer.step]
              rw [saveHandler_ok_write cfg.save cfg.shutdownOnSave true st req hb' hc,
                saveFinish_resolved]
              simp [WriterServer.eventSignals, hb', hc]
        · simp only [WriterServer.step]
          rw [saveHandler_no_write cfg.save cfg.shutdownOnSave true st req diskW hb' hc,
            saveFinish_resolved]
          simp [WriterServer.eventSignals, hb', hc]

theorem foldl_step_completionData (cfg : WriterServer.SessionConfig)
    (events : List WriterServer.Event) : ∀ (st : WriterServer.ServerState),
    (events.foldl (WriterServer.step cfg) st).completionData =
      events.foldl
        (fun acc e => match WriterServer.eventPayload cfg e with
          | some p => some p
          | none => acc)
        st.completionData := by
  induction events with
  | nil => intro st; rfl
  | cons e es ih =>
      intro st
      simp only [List.foldl_cons]
      rw [ih, step_completionData]

theorem foldl_step_resolved (cfg : WriterServer.SessionConfig)
    (events : List WriterServer.Event) : ∀ (st : WriterServer.ServerState),
    (events.foldl (WriterServer.step cfg) st).resolved =
      (st.resolved || events.any (WriterServer.eventSignals cfg)) := by
  induction events with
  | nil => intro st; simp
  | cons e es ih =>
      intro st
      simp only [List.foldl_cons, List.any_cons]
      rw [ih, step_resolved, Bool.or_assoc]

/-- C1 (counterexample): the completion gate is not idempotent on the
payload.  After a first `POST /api/complete` is accepted, a second accepted
`POST /api/complete` changes the final session result: the handler stores
`completionData = req.body` unconditionally, so the later request replaces
the already-captured payload and the session resolves with the second body
instead of the first. -/
theorem writer_second_complete_replaces_result :
    WriterServer.finalResult ⟨⟨"return", none⟩, false⟩ []
        [WriterServer.Event.complete (Json.obj [("success", Json.bool true),
            ("text", Json.str "one")]),
         WriterServer.Event.complete (Json.obj [("success", Json.bool true),
            ("text", Json.str "two")])]
        "2024-01-01T00:00:00.000Z"
    ≠ WriterServer.finalResult ⟨⟨"return", none⟩, false⟩ []
        [WriterServer.Event.complete (Json.obj [("success", Json.bool true),
            ("text", Json.str "one")])]
        "2024-01-01T00:00:00.000Z" := by
  intro h
  have e1 : (WriterServer.finalResult ⟨⟨"return", none⟩, false⟩ []
      [WriterServer.Event.complete (Json.obj [("success", Json.bool true),
          ("text", Json.str "one")]),
       WriterServer.Event.complete (Json.obj [("success", Json.bool true),
          ("text", Json.str "two")])]
      "2024-01-01T00:00:00.000Z").getField "text" = some (Json.str "two") := rfl
  rw [h] at e1
  have e2 : (WriterServer.finalResult ⟨⟨"return", none⟩, false⟩ []
      [WriterServer.Event.complete (Json.obj [("success", Json.bool true),
          ("text", Json.str "one")])]
      "2024-01-01T00:00:00.000Z").getField "text" = some (Json.str "one") := rfl
  rw [e2] at e1
  have hstr : ("one" : String) = "two" := by
    have := Option.some.inj e1
    injection this
  exact absurd hstr (by decide)

/-- C1 (amended): the promise of the gate resolves at most once (it is signalled
exactly when some processed request triggers completion), but the stored
completion payload slot is last-writer-wins: every accepted
completion-triggering request overwrites it, and the final session result
is the payload of the LAST such request (or the cancelled default when
there is none), not the first. -/
theorem writer_session_last_completion_wins (cfg : WriterServer.SessionConfig)
    (fs0 : FileSystem) (events : List WriterServer.Event) (ts : String) :
    (WriterServer.runSession cfg fs0 events).completionData =
        WriterServer.lastPayload cfg events
    ∧ (WriterServer.runSession cfg fs0 events).resolved =
        events.any (WriterServer.eventSignals cfg)
    ∧ WriterServer.finalResult cfg fs0 events ts =
        WriterServer.shutdownResult (WriterServer.lastPayload cfg events) ts := by
  refine ⟨?_, ?_, ?_⟩
  · exact foldl_step_completionData cfg events _
  · rw [WriterServer.runSession, foldl_step_resolved]
    rfl
  · rw [WriterServer.finalResult, WriterServer.runSession,
      foldl_step_completionData]
    rfl

/-- C8 (counterexample): when the session result carries metadata that
merely lacks a word count, no word count is filled in — the metadata is
passed through unchanged (the fallback only applies when metadata is absent
or falsy altogether), although whitespace-splitting the text would give 3.
-/
theorem cli_metadata_without_wordcount_not_filled :
    Cli.buildOutput (Json.obj [("success", Json.bool true),
        ("text", Json.str "a b c"),
        ("metadata", Json.obj [("sessionDuration", Json.num 1)])]) "T"
      = Json.obj [("success", Json.bool true),
        ("text", Json.str "a b c"),
        ("metadata", Json.obj [("sessionDuration", Json.num 1)])]
    ∧ ((Cli.buildOutput (Json.obj [("success", Json.bool true),
        ("text", Json.str "a b c"),
        ("metadata", Json.obj [("sessionDuration", Json.num 1)])]) "T").getField
        "metadata" >>= fun md => md.getField "wordCount") = none
    ∧ Cli.countWords "a b c" = 3 :=
  ⟨rfl, rfl, by decide⟩

/-- C8 (amended): the CLI output object mirrors the session result —
`text` is the text of the result (empty string when absent or falsy), `success`
is false exactly when the result says `success: false` — and the
word-count-carrying fallback metadata is substituted only when the result
has no truthy `metadata` at all: present metadata is passed through
verbatim even when it lacks a word count, while for a result without
metadata the metadata of the output carries the word count computed by
whitespace-splitting the text.  The object is printed to stdout, or written
to the file named by a truthy output option. -/
theorem cli_output_construction (result : Json) (now : String)
    (outputOpt : Option String) :
    (Cli.buildOutput result now).getField "text" =
        some (((result.getField "text").getD Json.null).jsOr (Json.str ""))
    ∧ (Cli.buildOutput result now).getField "success" =
        some (Json.bool (Cli.successFlag result))
    ∧ (Cli.successFlag result = false ↔
        result.getField "success" = some (Json.bool false))
    ∧ (Cli.buildOutput result now).getField "metadata" =
        some (((result.getField "metadata").getD Json.null).jsOr
          (Cli.fallbackMetadata (Cli.resultText result) now))
    ∧ (result.getField "metadata" = none →
        ((Cli.buildOutput result now).getField "metadata"
          >>= fun md => md.getField "wordCount") =
          some (Json.num (Cli.countWords (Cli.resultText result))))
    ∧ Cli.emitOutput outputOpt result now =
        (if Cli.outputOptTruthy outputOpt = true
         then Cli.Emitted.fileWrite (outputOpt.getD "") (Cli.buildOutput result now)
         else Cli.Emitted.stdoutLine (Cli.buildOutput result now)) := by
  refine ⟨?_, ?_, ?_, ?_, ?_, rfl⟩
  · simp [Cli.buildOutput, Json.getField, List.find?]
  · simp [Cli.buildOutput, Json.getField, List.find?]
  · rcases h : result.getField "success" with _ | j
    · simp [Cli.successFlag, h]
    · cases j with
      | bool b => cases b <;> simp [Cli.successFlag, h]
      | null => simp [Cli.successFlag, h]
      | num n => simp [Cli.successFlag, h]
      | str s => simp [Cli.successFlag, h]
      | arr xs => simp [Cli.successFlag, h]
      | obj ms => simp [Cli.successFlag, h]
  · rcases hmeta : result.getField "metadata" with _ | m
    · simp only [Cli.buildOutput]
      rw [hmeta]
      simp [Json.getField, List.find?, Json.jsOr, Json.truthy]
    · simp only [Cli.buildOutput, hmeta, Option.getD_some, Json.jsOr]
      simp [Json.getField, List.find?]
  · intro hmeta
    simp only [Cli.buildOutput]
    rw [hmeta]
    simp [Json.getField, List.find?, Cli.fallbackMetadata]

/-- C8 (witness): the amended construction at a concrete result without
metadata, with an output-file option. -/
theorem cli_output_construction_witness :
    (Cli.buildOutput (Json.obj [("text", Json.str "hi there")]) "T").getField "text" =
        some ((((Json.obj [("text", Json.str "hi there")]).getField "text").getD
          Json.null).jsOr (Json.str ""))
    ∧ (Cli.buildOutput (Json.obj [("text", Json.str "hi there")]) "T").getField
        "success" =
        some (Json.bool (Cli.successFlag (Json.obj [("text", Json.str "hi there")])))
    ∧ (Cli.successFlag (Json.obj [("text", Json.str "hi there")]) = false ↔
        (Json.obj [("text", Json.str "hi there")]).getField "success" =
          some (Json.bool false))
    ∧ (Cli.buildOutput (Json.obj [("text", Json.str "hi there")]) "T").getField
        "metadata" =
        some ((((Json.obj [("text", Json.str "hi there")]).getField
          "metadata").getD Json.null).jsOr
          (Cli.fallbackMetadata
            (Cli.resultText (Json.obj [("text", Json.str "hi there")])) "T"))
    ∧ ((Json.obj [("text", Json.str "hi there")]).getField "metadata" = none →
        ((Cli.buildOutput (Json.obj [("text", Json.str "hi there")]) "T").getField
          "metadata" >>= fun md => md.getField "wordCount") =
          some (Json.num (Cli.countWords
            (Cli.resultText (Json.obj [("text", Json.str "hi there")])))))
    ∧ Cli.emitOutput (some "out.json") (Json.obj [("text", Json.str "hi there")]) "T" =
        (if Cli.outputOptTruthy (some "out.json") = true
         then Cli.Emitted.fileWrite ((some "out.json").getD "")
           (Cli.buildOutput (Json.obj [("text", Json.str "hi there")]) "T")
         else Cli.Emitted.stdoutLine
           (Cli.buildOutput (Json.obj [("text", Json.str "hi there")]) "T")) :=
  cli_output_construction (Json.obj [("text", Json.str "hi there")]) "T"
    (some "out.json")
